import Mathlib

/-!
Shallow embedding of `src/optimizer.py` (RsOptimizer): a greedy, tick-based
action-rotation simulator with cooldowns, a shared adrenaline resource and
time-limited value modifiers.

Modelling conventions:
* Python floats are modelled as exact rationals (`ℚ`).
* Fallible Python code (statements that can raise at runtime, such as a
  comparison against `None` or a division by zero) is modelled in
  `Except String`, the error string naming the Python exception.
* The pseudo-random draw of `random.random()` in `adjust_adrenaline` is made
  explicit as a `draw : ℚ` parameter; `random.uniform` value sampling
  (`Ability.value` with `prng=True`) is not modelled — every claim below
  evaluates the simulation along paths where no value is sampled
  (`a.value()` inside the normalized scans always uses the default
  `prng=False` midpoint branch, and the greedy skip path computes no value).
* The eligibility predicates stored in `Action.pstate_check` are the closed
  set of module-level functions of the source (`pstate_threshold`,
  `pstate_threshold_melee`, `pstate_threshold_range`, `pstate_ultimate`),
  modelled as the enumeration `PCheck`; `none` models a non-function value
  (the `inspect.isfunction` guard).
* `Duration` (the base class holding `last_used` / `times_used`) is folded
  into the `Modifier` and `Action` structures as fields.
-/

namespace RsOptimizer

/-- Python `int()` truncation toward zero, applied to an exact rational. -/
def pyInt (q : ℚ) : ℤ :=
  if q < 0 then -(⌊-q⌋) else ⌊q⌋

/-- The closed set of eligibility predicates of the source module
(`optimizer.py` lines 424-453), used as values of `Action.pstate_check`. -/
inductive PCheck where
  | threshold
  | threshold_melee
  | threshold_range
  | ultimate
  deriving DecidableEq, Repr

/-- Modifier (`optimizer.py` lines 306-344): a time-boxed or single-use
multiplicative value bonus.  `last_used` / `times_used` come from the
`Duration` base class; instances reaching the active set always passed
through `reset()`, which (re)sets `last_used`.  The source's misspelled
attribute name `is_unqiue` is kept. -/
structure Modifier where
  name : String
  multiplier : ℚ
  duration : Option ℚ
  one_time_use : Bool
  is_active : Bool
  is_unqiue : Bool
  last_used : ℚ
  times_used : ℕ
  deriving DecidableEq, Repr

/-- Modifier.apply_mod (line 339-340): `value + value * multiplier`. -/
def Modifier.apply_mod (m : Modifier) (value : ℚ) : ℚ :=
  value + value * m.multiplier

/-- Modifier.reset (lines 342-344): zero the timer and reactivate. -/
def Modifier.reset (m : Modifier) : Modifier :=
  { m with last_used := 0, is_active := true }

/-- Modifier.tick (lines 330-335): advance the timer by `ticks`; then, if the
modifier is still active, compare `last_used >= self.duration`.  When
`duration` is `None` (the one-time-use case) that comparison raises
`TypeError` under Python 3, which the model surfaces as an error. -/
def Modifier.tick (m : Modifier) (ticks : ℚ) : Except String Modifier :=
  let m1 : Modifier := { m with last_used := m.last_used + ticks }
  if m1.is_active then
    match m1.duration with
    | none => Except.error "TypeError: not supported between instances of int and NoneType"
    | some d =>
        if m1.last_used ≥ d then Except.ok { m1 with is_active := false }
        else Except.ok m1
  else
    Except.ok m1

/-- Action (`Ability` lines 347-400 plus the `Action` subclass lines 403-421):
a cooldown-gated unit of work.  `min`/`max` are stored post-construction as
rationals (the `min`-defaulting logic of `Ability.__init__` line 353 is
modelled separately as `ability_init_min`); `last_used` is initialised to the
cooldown by `__init__` so actions start ready. -/
structure Action where
  name : String
  buddy_actions : Option (List String)
  min : ℚ
  max : ℚ
  cooldown : ℚ
  ticks : ℚ
  pstate_check : Option PCheck
  negative_pstate_check : Bool
  mod : Option Modifier
  modable : Bool
  adrenaline_change : Option ℚ
  accuracy_mod : ℚ
  number_of_hits : ℚ
  always_use : Bool
  enabled : Bool
  last_used : ℚ
  times_used : ℕ
  total_used_value : ℚ
  deriving DecidableEq, Repr

/-- The `min` computation of `Ability.__init__` (line 353):
`self.min = float(min if min else (.20 * max))`.  A falsy `min` (Python
`None` or `0`) falls back to `.20 * max`; when `max` is also `None` that
multiplication raises `TypeError`. -/
def ability_init_min (min? : Option ℚ) (max? : Option ℚ) : Except String ℚ :=
  let truthy : Bool :=
    match min? with
    | some m => decide (m ≠ 0)
    | none => false
  if truthy then
    Except.ok (min?.getD 0)
  else
    match max? with
    | some mx => Except.ok ((20 / 100) * mx)
    | none => Except.error "TypeError: unsupported operand for float and NoneType"

/-- Ability.value with `prng=False` (lines 377-393): midpoint of `min`/`max`,
adjusted by `accuracy_mod`, normalized by `ticks` when requested, multiplied
by `number_of_hits`.  The `prng=True` branch (a uniform draw) is not
modelled; no claim below evaluates it. -/
def Action.value (a : Action) (normalize : Bool) : ℚ :=
  let val := (a.min + a.max) / 2
  let val := val + val * a.accuracy_mod
  let val := if normalize then val / a.ticks else val
  val * a.number_of_hits

/-- Ability.time_remaining (lines 395-397). -/
def Action.time_remaining (a : Action) : ℚ :=
  a.cooldown - a.last_used

/-- Ability.is_ready (lines 399-400). -/
def Action.is_ready (a : Action) : Bool :=
  decide (a.last_used ≥ a.cooldown) && a.enabled

/-- Duration.tick for an action (lines 295-296): `last_used += ticks`. -/
def Action.tick (a : Action) (ticks : ℚ) : Action :=
  { a with last_used := a.last_used + ticks }

/-- Duration.activate for an action (lines 298-303): reset `last_used`,
increment `times_used`. -/
def Action.activate (a : Action) : Action :=
  { a with last_used := 0, times_used := a.times_used + 1 }

/-- Action.shares_cooldown (lines 412-413). -/
def Action.shares_cooldown (a : Action) : Bool :=
  match a.buddy_actions with
  | none => false
  | some bs => decide (bs.length > 0)

/-- Action.find_by_name (lines 415-421): index of the first action with the
given name, `none` when absent. -/
def Action.find_by_name (name : String) (action_list : List Action) : Option ℕ :=
  action_list.findIdx? (fun a => a.name == name)

/-- SimulationState (`PState.__init__` lines 72-90).  The `on_activate`
pipeline list is fixed in the source; it is modelled by `PState.activate`
calling the four effect functions in the source order. -/
structure PState where
  adrenaline : ℚ
  excess_adrenaline : ℚ
  spent_adrenaline : ℚ
  gained_adrenaline : ℚ
  actions : List Action
  use_prng : Bool
  active_mods : List Modifier
  use_ringofvigour : Bool
  use_ASR : Bool
  deriving DecidableEq, Repr

/-- PState.__init__ (lines 72-81): fresh state with zeroed counters and an
empty active-modifier set. -/
def mkPState (actions : List Action) (adrenaline : ℚ) (use_prng : Bool)
    (use_ringofvigour : Bool) (use_ASR : Bool) : PState :=
  { adrenaline := adrenaline
    excess_adrenaline := 0
    spent_adrenaline := 0
    gained_adrenaline := 0
    actions := actions
    use_prng := use_prng
    active_mods := []
    use_ringofvigour := use_ringofvigour
    use_ASR := use_ASR }

/-- pstate_threshold (lines 424-425). -/
def pstate_threshold (pstate : PState) : Bool :=
  decide (pstate.adrenaline ≥ 50)

/-- pstate_threshold_melee (lines 428-436): refuses when the "Bersker"
ultimate is ready (or would be starved of adrenaline), else thresholds at
50. -/
def pstate_threshold_melee (pstate : PState) : Bool :=
  match Action.find_by_name "Bersker" pstate.actions with
  | some i =>
      match pstate.actions[i]? with
      | some b =>
          if b.is_ready || decide ((pstate.adrenaline - 15) + b.time_remaining * (8 / 3) < 100) then
            false
          else
            decide (pstate.adrenaline ≥ 50)
      | none => decide (pstate.adrenaline ≥ 50)
  | none => decide (pstate.adrenaline ≥ 50)

/-- pstate_threshold_range (lines 439-449): same shape, keyed on
"Death's Swiftness". -/
def pstate_threshold_range (pstate : PState) : Bool :=
  match Action.find_by_name "Death's Swiftness" pstate.actions with
  | some i =>
      match pstate.actions[i]? with
      | some b =>
          if b.is_ready || decide ((pstate.adrenaline - 15) + b.time_remaining * (8 / 3) < 100) then
            false
          else
            decide (pstate.adrenaline ≥ 50)
      | none => decide (pstate.adrenaline ≥ 50)
  | none => decide (pstate.adrenaline ≥ 50)

/-- pstate_ultimate (lines 452-453). -/
def pstate_ultimate (pstate : PState) : Bool :=
  decide (pstate.adrenaline = 100)

/-- Dispatch for the closed predicate set. -/
def evalPCheck (c : PCheck) (s : PState) : Bool :=
  match c with
  | PCheck.threshold => pstate_threshold s
  | PCheck.threshold_melee => pstate_threshold_melee s
  | PCheck.threshold_range => pstate_threshold_range s
  | PCheck.ultimate => pstate_ultimate s

/-- PState.check_pstate (lines 284-288): a non-function predicate means
always eligible; otherwise the predicate result is XORed with
`negative_pstate_check`. -/
def PState.check_pstate (s : PState) (action : Action) : Bool :=
  match action.pstate_check with
  | none => true
  | some c => xor (evalPCheck c s) action.negative_pstate_check

/-- PState.tick (lines 142-152): advance every action timer and every active
modifier timer by `ticks`, then prune inactive modifiers.  A modifier tick
can raise (one-time-use modifiers, see `Modifier.tick`); the raised exception
propagates out of `PState.tick` in the source. -/
def PState.tick (s : PState) (ticks : ℚ) : Except String PState :=
  match s.active_mods.mapM (fun m => m.tick ticks) with
  | Except.error e => Except.error e
  | Except.ok mods =>
      Except.ok { s with
        actions := s.actions.map (fun a => a.tick ticks)
        active_mods := mods.filter (fun m => m.is_active) }

/-- PState.get_available_actions (lines 265-282): if any ready, eligible
action is flagged `always_use`, return exactly those (the source binds that
forced list to a local `always_use_actions` first); otherwise return every
ready, eligible action.  (`enabled` is folded into `is_ready`.) -/
def PState.get_available_actions (s : PState) : List Action :=
  if (s.actions.filter (fun a => a.always_use && a.is_ready && s.check_pstate a)).length > 0 then
    s.actions.filter (fun a => a.always_use && a.is_ready && s.check_pstate a)
  else
    s.actions.filter (fun a => a.is_ready && s.check_pstate a)

/-- The optimistic throwaway state built by `normalized_average_value`
(line 99): empty roster, adrenaline projected forward by the maximum passive
gain over the window and truncated by Python `int()`. -/
def nav_fake_state (s : PState) (ticks : ℚ) : PState :=
  mkPState [] ((pyInt (s.adrenaline + ((ticks - 3) / 3) * 8) : ℤ) : ℚ) false false false

/-- The per-action keep test of `normalized_average_value` (lines 101-114):
pass the filter (absent filter keeps everything), be usable within the
window, and be eligible against the optimistic throwaway state. -/
def nav_keep (s : PState) (ticks : ℚ) (filter? : Option (Action → Bool)) (a : Action) : Bool :=
  (match filter? with
   | some f => f a
   | none => true)
  && decide (a.time_remaining ≤ ticks)
  && (nav_fake_state s ticks).check_pstate a

/-- PState.normalized_average_value (lines 95-116): average per-tick value of
every kept action (each value run through `mod` when one is given, then
divided by the action's `ticks`).  When no action qualifies the source
computes `sum([]) / len([])` and raises `ZeroDivisionError`. -/
def PState.normalized_average_value (s : PState) (ticks : ℚ) (mod? : Option Modifier)
    (filter? : Option (Action → Bool)) : Except String ℚ :=
  let values :=
    (s.actions.filter (nav_keep s ticks filter?)).map (fun a =>
      let val := a.value true
      let val :=
        match mod? with
        | some m => m.apply_mod val
        | none => val
      val / a.ticks)
  if values.length = 0 then
    Except.error "ZeroDivisionError: division by zero"
  else
    Except.ok (values.sum / (values.length : ℚ))

/-- The per-action keep test of `normalized_best_value` (lines 122-130):
like `nav_keep` but eligibility is checked against the real state, not a
throwaway clone. -/
def nbv_keep (s : PState) (ticks : ℚ) (filter? : Option (Action → Bool)) (a : Action) : Bool :=
  (match filter? with
   | some f => f a
   | none => true)
  && decide (a.time_remaining ≤ ticks)
  && s.check_pstate a

/-- The maximum per-tick value tracked by the loop of `normalized_best_value`
(lines 120-138) in the local variable `current_best_val`, starting from 0.
Unlike the average scan, the mod is applied only to modable actions. -/
def normalized_best_value_scan (s : PState) (ticks : ℚ) (mod? : Option Modifier)
    (filter? : Option (Action → Bool)) : ℚ :=
  (s.actions.filter (nbv_keep s ticks filter?)).foldl
    (fun current_best_val a =>
      let val := a.value true
      let val :=
        match mod? with
        | some m => if a.modable then m.apply_mod val else val
        | none => val
      let val := val / a.ticks
      if current_best_val < val then val else current_best_val)
    0

/-- PState.normalized_best_value (lines 119-140): the loop tracks
`current_best_val` (see `normalized_best_value_scan`) but the `return`
statement at line 140 reads `current_best_action`, a name never bound in
this function (it is a local of the unrelated `get_greedy_best`), so every
call raises `NameError` at the return. -/
def PState.normalized_best_value (s : PState) (ticks : ℚ) (mod? : Option Modifier)
    (filter? : Option (Action → Bool)) : Except String ℚ :=
  let _current_best_val := normalized_best_value_scan s ticks mod? filter?
  Except.error "NameError: name current_best_action is not defined"

/-- The `modable_filter` lambda of `PState.value` (line 243). -/
def modable_filter (a : Action) : Bool :=
  a.modable

/-- The `value_increase` lambda of `PState.value` (line 244):
`v - v / (1 + m)`.  (Rational division by zero is total in the model; the
source would raise on `m = -1`, a multiplier no claim exercises.) -/
def value_increase (v m : ℚ) : ℚ :=
  v - v / (1 + m)

/-- PState.value (lines 225-263): `0` for the `None` action; otherwise the
action's own value with every active modifier applied (modable actions
only), plus, when prediction is on and the action grants a modifier, the
estimated future increase from that modifier.  The one-time-use estimate
calls `normalized_best_value` (which raises `NameError`); the duration
estimate calls `normalized_average_value` with `ticks=mod.duration`
(raising `TypeError` when that duration is `None`). -/
def PState.value (s : PState) (action? : Option Action) (mod_value_prediction : Bool) :
    Except String ℚ :=
  match action? with
  | none => Except.ok 0
  | some action =>
    let base_value := action.value true
    let base_value :=
      if action.modable then
        s.active_mods.foldl (fun v m => if m.is_active then m.apply_mod v else v) base_value
      else
        base_value
    match action.mod with
    | some mod =>
        if mod_value_prediction then
          if mod.one_time_use then do
            let next_action_value ←
              s.normalized_best_value action.ticks (some mod) (some modable_filter)
            Except.ok (base_value + value_increase next_action_value mod.multiplier)
          else
            match mod.duration with
            | none =>
                Except.error "TypeError: unsupported operand for NoneType and int"
            | some d => do
                let average_tick_value ←
                  s.normalized_average_value d (some mod) (some modable_filter)
                Except.ok (base_value + value_increase average_tick_value mod.multiplier * d)
        else
          Except.ok base_value
    | none => Except.ok base_value

/-- The `actual_change` selection of `adjust_adrenaline` (lines 11-18).
`draw` is the `random.random()` sample of the ASR branch made explicit. -/
def actual_adrenaline_change (draw : ℚ) (pstate : PState) (change : ℚ) : ℚ :=
  if change = -100 ∧ pstate.use_ringofvigour then -90
  else if change = -15 ∧ pstate.use_ASR ∧ pstate.use_prng then
    (if draw ≤ 1 / 10 then 0 else -15)
  else change

/-- The body of `adjust_adrenaline` for a non-`None` change (lines 20-30):
apply the actual change, accumulate the gain or the absolute spend, then
clamp the balance to at most 100 recording the overflow as excess. -/
def adjust_core (draw : ℚ) (pstate : PState) (change : ℚ) : PState :=
  let actual_change := actual_adrenaline_change draw pstate change
  let s1 := { pstate with adrenaline := pstate.adrenaline + actual_change }
  let s2 :=
    if actual_change > 0 then
      { s1 with gained_adrenaline := s1.gained_adrenaline + actual_change }
    else
      { s1 with spent_adrenaline := s1.spent_adrenaline + |actual_change| }
  if s2.adrenaline > 100 then
    { s2 with
      excess_adrenaline := s2.excess_adrenaline + (s2.adrenaline - 100)
      adrenaline := 100 }
  else
    s2

/-- adjust_adrenaline (lines 8-30): a `None` change is a no-op, otherwise
`adjust_core` runs on the declared change. -/
def adjust_adrenaline (draw : ℚ) (pstate : PState) (action : Action) : PState :=
  match action.adrenaline_change with
  | none => pstate
  | some change => adjust_core draw pstate change

/-- The body of `apply_mods` for an action that carries a modifier template
(lines 36-45): deep-copy and reset the granted template; if no currently
tracked unique modifier carries its name, append it, else reset in place
every active-set entry with that name. -/
def apply_mods_core (pstate : PState) (tmpl : Modifier) : PState :=
  let mod := tmpl.reset
  if !(((pstate.active_mods.filter (fun m => m.is_unqiue)).map (fun m => m.name)).contains mod.name) then
    { pstate with active_mods := pstate.active_mods ++ [mod] }
  else
    { pstate with
      active_mods :=
        pstate.active_mods.map (fun m => if m.name = mod.name then m.reset else m) }

/-- apply_mods (lines 33-45): a no-op unless the action carries a `Modifier`
(the source checks `type(action.mod) == Modifier`). -/
def apply_mods (pstate : PState) (action : Action) : PState :=
  match action.mod with
  | none => pstate
  | some tmpl => apply_mods_core pstate tmpl

/-- update_buddies (lines 48-55): reset `last_used` of each named buddy that
exists in the roster. -/
def update_buddies (pstate : PState) (action : Action) : PState :=
  if action.shares_cooldown then
    (action.buddy_actions.getD []).foldl
      (fun st action_name =>
        match Action.find_by_name action_name st.actions with
        | none => st
        | some i =>
            match st.actions[i]? with
            | none => st
            | some b =>
                { st with actions := st.actions.set i { b with last_used := 0 } })
      pstate
  else
    pstate

/-- register_action_value (lines 58-65): accumulate the non-predictive value
of this usage into the action's `total_used_value`.  With prediction off,
`PState.value` cannot raise; the error arm mirrors the `try/except` of the
activation pipeline swallowing a failure. -/
def register_action_value (pstate : PState) (action : Action) : PState :=
  match Action.find_by_name action.name pstate.actions with
  | none => pstate
  | some i =>
      match pstate.actions[i]? with
      | none => pstate
      | some b =>
          match pstate.value (some action) false with
          | Except.ok v =>
              { pstate with
                actions := pstate.actions.set i { b with total_used_value := b.total_used_value + v } }
          | Except.error _ => pstate

/-- PState.activate (lines 154-181): activating `None` just ticks once;
activating a known name resets that action's timer, runs the four
`on_activate` effects in order (each wrapped in `try/except` in the source),
then ticks by the action's duration.  An unknown name only prints. -/
def PState.activate (draw : ℚ) (s : PState) (name? : Option String) : Except String PState :=
  match name? with
  | none => s.tick 1
  | some name =>
    match Action.find_by_name name s.actions with
    | none => Except.ok s
    | some action_i =>
        match s.actions[action_i]? with
        | none => Except.ok s
        | some a0 =>
            let action := a0.activate
            let s1 := { s with actions := s.actions.set action_i action }
            let s2 := adjust_adrenaline draw s1 action
            let s3 := apply_mods s2 action
            let s4 := update_buddies s3 action
            let s5 := register_action_value s4 action
            s5.tick action.ticks

/-- PState.get_greedy_best (lines 207-223): among available actions, track
the one with the highest predicted value; ties go to the lower cooldown
(and the first action always replaces the `None` start). -/
def PState.get_greedy_best (s : PState) : Except String (Option Action) := do
  let r ← s.get_available_actions.foldlM
    (fun (acc : ℚ × Option Action) a => do
      let val ← s.value (some a) true
      match acc.2 with
      | none => pure (val, some a)
      | some best =>
          if (val = acc.1 ∧ a.cooldown < best.cooldown) ∨ val > acc.1 then
            pure (val, some a)
          else
            pure acc)
    ((0 : ℚ), (none : Option Action))
  Except.ok r.2

/-- One decision record of the greedy loop (lines 478-483). -/
structure DecisionEntry where
  action : Option Action
  value : ℚ
  adrenaline : ℚ
  mods : String
  deriving DecidableEq, Repr

/-- The active-modifier display string of a decision record (lines 476,
482). -/
def modsString (s : PState) : String :=
  let mods := (s.active_mods.filter (fun m => m.is_active)).map (fun m => m.name)
  if mods.length = 0 then "" else "[" ++ String.intercalate " | " mods ++ "]"

/-- One iteration of the `greedy_value` loop body (lines 468-486).  Note the
skip branch: when no action is available the state is ticked once and the
counter bumped, and then — the branch does not `continue` — the loop still
records the entry, activates `None` (a second tick) and bumps the counter
again. -/
def greedy_step (draw : ℚ) (s : PState) (current_tick : ℚ) :
    Except String (PState × ℚ × DecisionEntry) := do
  let action ← s.get_greedy_best
  let (s, current_tick) ←
    match action with
    | none => do
        let s1 ← s.tick 1
        pure (s1, current_tick + 1)
    | some _ => pure (s, current_tick)
  let v ← s.value action false
  let entry : DecisionEntry :=
    { action := action, value := v, adrenaline := s.adrenaline, mods := modsString s }
  let s2 ← s.activate draw (action.map (fun a => a.name))
  let current_tick :=
    current_tick + (match action with
                    | none => 1
                    | some a => a.ticks)
  Except.ok (s2, current_tick, entry)

/-- greedy_value (lines 464-488): iterate the loop body while
`current_tick <= ticks`, collecting the decision entries.  `fuel` bounds the
iteration count (the source loop terminates because every action has
positive duration). -/
def greedy_value (fuel : ℕ) (draw : ℚ) (s : PState) (ticks : ℚ) (current_tick : ℚ) :
    Except String (List DecisionEntry) :=
  match fuel with
  | 0 => Except.ok []
  | fuel + 1 =>
    if current_tick ≤ ticks then do
      let (s1, t1, entry) ← greedy_step draw s current_tick
      let rest ← greedy_value fuel draw s1 ticks t1
      Except.ok (entry :: rest)
    else
      Except.ok []

/-! Concrete fixtures used by witnesses and counterexamples. -/

/-- A plain ready action (shape of "Slice" in the melee roster): midpoint
value 75, per-tick value 25. -/
def baseAction : Action :=
  { name := "Slice"
    buddy_actions := none
    min := 30
    max := 120
    cooldown := 5
    ticks := 3
    pstate_check := none
    negative_pstate_check := false
    mod := none
    modable := true
    adrenaline_change := some 8
    accuracy_mod := 0
    number_of_hits := 1
    always_use := false
    enabled := true
    last_used := 5
    times_used := 0
    total_used_value := 0 }

/-- A duration modifier (shape of "Berserk"). -/
def testMod : Modifier :=
  { name := "Berserk"
    multiplier := 1
    duration := some 34
    one_time_use := false
    is_active := true
    is_unqiue := true
    last_used := 0
    times_used := 0 }

/-- An active one-time-use modifier: `duration` is `None` in the source. -/
def oneTimeMod : Modifier :=
  { name := "OneShot"
    multiplier := 1
    duration := none
    one_time_use := true
    is_active := true
    is_unqiue := true
    last_used := 0
    times_used := 0 }

/-- A state with one ready, eligible action. -/
def c1State : PState := mkPState [baseAction] 0 false false false

/-- An action still cooling down (just used, cooldown 10). -/
def coolingAction : Action := { baseAction with name := "Sever", cooldown := 10, last_used := 0 }

/-- A state whose only action is cooling: nothing is available. -/
def c2State : PState := mkPState [coolingAction] 0 false false false

/-- "c2State" after one global tick. -/
def c2S1 : PState := { c2State with actions := [{ coolingAction with last_used := 1 }] }

/-- "c2State" after two global ticks. -/
def c2S2 : PState := { c2State with actions := [{ coolingAction with last_used := 2 }] }

/-- A rosterless state at 95 adrenaline with ring of vigour enabled. -/
def c34State : PState := mkPState [] 95 false true false

/-- An action granting the `testMod` template on use. -/
def modAction : Action := { baseAction with name := "Quake", mod := some testMod }

/-- A state in which the unique modifier `testMod` is already live. -/
def c6State : PState :=
  { mkPState [modAction] 0 false false false with active_mods := [{ testMod with last_used := 10 }] }


/-- No two live unique modifiers share a name (the active-set invariant of
§3 of the spec). -/
def noDupUnique (l : List Modifier) : Prop :=
  l.Pairwise (fun m1 m2 => m1.is_unqiue = true → m2.is_unqiue = true → m1.name ≠ m2.name)

/-! Claim theorems. -/

/-- C9: for every modifier and value, with `1 + multiplier` nonzero, the
prediction formula `value_increase` applied to `apply_mod`'s output recovers
exactly `v * multiplier` over the rationals. -/
theorem apply_mod_roundtrip (m : Modifier) (v : ℚ) (h : 1 + m.multiplier ≠ 0) :
    value_increase (m.apply_mod v) m.multiplier = v * m.multiplier := by
  unfold value_increase Modifier.apply_mod
  field_simp
  ring

/-- Witness for C9 at `testMod` (multiplier 1) and the spec's §8 example
value 40: the predicted increase is 40. -/
theorem apply_mod_roundtrip_witness :
    (1 + testMod.multiplier ≠ 0) ∧
      value_increase (testMod.apply_mod 40) testMod.multiplier = 40 * testMod.multiplier :=
  ⟨by norm_num [testMod], apply_mod_roundtrip testMod 40 (by norm_num [testMod])⟩

/-- C10: an explicitly passed zero lower bound behaves like an unspecified
one at the `Ability.__init__` interface — both produce `min = 0.2 * max`. -/
theorem ability_init_min_zero (mx : ℚ) :
    ability_init_min (some 0) (some mx) = Except.ok ((1 / 5) * mx)
      ∧ ability_init_min (some 0) (some mx) = ability_init_min none (some mx) := by
  unfold ability_init_min
  norm_num

/-- C5 (code bug): ticking an active one-time-use modifier does not leave it
untouched — the source compares `last_used >= None` and raises `TypeError`
(Python 3) instead of never deactivating and never failing. -/
theorem modifier_tick_one_time_use_type_error :
    oneTimeMod.one_time_use = true ∧ oneTimeMod.is_active = true
      ∧ oneTimeMod.duration = none
      ∧ oneTimeMod.tick 1
          = Except.error "TypeError: not supported between instances of int and NoneType" := by
  refine ⟨rfl, rfl, rfl, rfl⟩

/-- C1 (code bug): `normalized_best_value` never returns the tracked maximum
per-tick value — line 140 returns the unbound name `current_best_action`, so
every call raises `NameError`, even when the eligibility scan's tracked
maximum (here 25/3 for `c1State`) is well defined. -/
theorem normalized_best_value_name_error :
    (∀ (s : PState) (t : ℚ) (m : Option Modifier) (f : Option (Action → Bool)),
        s.normalized_best_value t m f
          = Except.error "NameError: name current_best_action is not defined")
      ∧ normalized_best_value_scan c1State 3 none none = 25 / 3 := by
  refine ⟨fun s t m f => rfl, ?_⟩
  have hkeep : nbv_keep c1State 3 none baseAction = true := by
    simp only [nbv_keep, PState.check_pstate, Action.time_remaining, c1State, baseAction,
      mkPState, Bool.and_eq_true, decide_eq_true_eq]
    norm_num
  unfold normalized_best_value_scan
  rw [show c1State.actions = [baseAction] from rfl, List.filter_cons_of_pos hkeep,
    List.filter_nil]
  simp only [List.foldl, Action.value, baseAction]
  norm_num

/-- C7: when no action passes the filter, time-remaining and eligibility
checks, `normalized_average_value` divides by the empty count and fails with
`ZeroDivisionError` instead of returning a value. -/
theorem normalized_average_value_empty_division (s : PState) (ticks : ℚ)
    (mod? : Option Modifier) (filter? : Option (Action → Bool))
    (h : ∀ a ∈ s.actions, nav_keep s ticks filter? a = false) :
    s.normalized_average_value ticks mod? filter?
      = Except.error "ZeroDivisionError: division by zero" := by
  unfold PState.normalized_average_value
  have hnil : s.actions.filter (nav_keep s ticks filter?) = [] := by
    rw [List.filter_eq_nil_iff]
    intro a ha
    simp [h a ha]
  rw [hnil]
  rfl

/-- Witness for C7: in `c2State` the only action is still 10 ticks from
ready, so nothing qualifies in a 3-tick window and the average fails. -/
theorem normalized_average_value_empty_division_witness :
    c2State.normalized_average_value 3 none none
      = Except.error "ZeroDivisionError: division by zero" :=
  normalized_average_value_empty_division c2State 3 none none (by
    intro a ha
    rw [show c2State.actions = [coolingAction] from rfl, List.mem_singleton] at ha
    subst ha
    simp only [nav_keep, Action.time_remaining, coolingAction, baseAction,
      Bool.and_eq_false_iff, decide_eq_false_iff_not]
    left
    right
    norm_num)

/-- Helper: the post-adjust balance is the clamped sum. -/
theorem adjust_core_adrenaline (draw : ℚ) (s : PState) (change : ℚ) :
    (adjust_core draw s change).adrenaline
      = min (s.adrenaline + actual_adrenaline_change draw s change) 100 := by
  unfold adjust_core
  by_cases hpos : actual_adrenaline_change draw s change > 0 <;>
    by_cases hover : s.adrenaline + actual_adrenaline_change draw s change > 100 <;>
      simp [hpos, hover, min_def] <;> split_ifs <;> linarith

/-- Helper: the wasted counter grows by exactly the clamped overflow. -/
theorem adjust_core_excess (draw : ℚ) (s : PState) (change : ℚ) :
    (adjust_core draw s change).excess_adrenaline
      = s.excess_adrenaline
          + max (s.adrenaline + actual_adrenaline_change draw s change - 100) 0 := by
  unfold adjust_core
  by_cases hpos : actual_adrenaline_change draw s change > 0 <;>
    by_cases hover : s.adrenaline + actual_adrenaline_change draw s change > 100 <;>
      simp [hpos, hover, max_def] <;> split_ifs <;> linarith

/-- Helper: spends accumulate the absolute non-positive change. -/
theorem adjust_core_spent (draw : ℚ) (s : PState) (change : ℚ) :
    (adjust_core draw s change).spent_adrenaline
      = s.spent_adrenaline
          + (if actual_adrenaline_change draw s change > 0 then 0
             else |actual_adrenaline_change draw s change|) := by
  unfold adjust_core
  by_cases hpos : actual_adrenaline_change draw s change > 0 <;>
    by_cases hover : s.adrenaline + actual_adrenaline_change draw s change > 100 <;>
      simp [hpos, hover]

/-- Helper: gains accumulate the positive change. -/
theorem adjust_core_gained (draw : ℚ) (s : PState) (change : ℚ) :
    (adjust_core draw s change).gained_adrenaline
      = s.gained_adrenaline
          + (if actual_adrenaline_change draw s change > 0 then
               actual_adrenaline_change draw s change
             else 0) := by
  unfold adjust_core
  by_cases hpos : actual_adrenaline_change draw s change > 0 <;>
    by_cases hover : s.adrenaline + actual_adrenaline_change draw s change > 100 <;>
      simp [hpos, hover]

/-- C3: `adjust_adrenaline` preserves the accounting identity
`adrenaline + excess + spent = gained + initial` (for any `initial` the state
satisfied it with) and keeps the balance at most 100, for every action and
every random draw. -/
theorem adjust_adrenaline_accounting (draw : ℚ) (s : PState) (a : Action) (init : ℚ)
    (hinv : s.adrenaline + s.excess_adrenaline + s.spent_adrenaline
      = s.gained_adrenaline + init)
    (hle : s.adrenaline ≤ 100) :
    (adjust_adrenaline draw s a).adrenaline + (adjust_adrenaline draw s a).excess_adrenaline
        + (adjust_adrenaline draw s a).spent_adrenaline
      = (adjust_adrenaline draw s a).gained_adrenaline + init
    ∧ (adjust_adrenaline draw s a).adrenaline ≤ 100 := by
  cases hch : a.adrenaline_change with
  | none =>
    have heq : adjust_adrenaline draw s a = s := by
      unfold adjust_adrenaline
      rw [hch]
    rw [heq]
    exact ⟨hinv, hle⟩
  | some change =>
    have heq : adjust_adrenaline draw s a = adjust_core draw s change := by
      unfold adjust_adrenaline
      rw [hch]
    rw [heq, adjust_core_adrenaline, adjust_core_excess, adjust_core_spent,
      adjust_core_gained]
    constructor
    · by_cases hpos : actual_adrenaline_change draw s change > 0
      · simp only [hpos, if_true, min_def, max_def]
        split_ifs <;> linarith
      · have habs : |actual_adrenaline_change draw s change|
            = -actual_adrenaline_change draw s change :=
          abs_of_nonpos (le_of_not_lt hpos)
        simp only [hpos, if_false, habs, min_def, max_def]
        split_ifs <;> linarith
    · exact min_le_right _ _

/-- Witness for C3: at 95 adrenaline with zeroed counters, activating a
gain-8 action keeps the identity against `init = 95` and the 100 cap. -/
theorem adjust_adrenaline_accounting_witness :
    (adjust_adrenaline 0 c34State baseAction).adrenaline
        + (adjust_adrenaline 0 c34State baseAction).excess_adrenaline
        + (adjust_adrenaline 0 c34State baseAction).spent_adrenaline
      = (adjust_adrenaline 0 c34State baseAction).gained_adrenaline + 95
    ∧ (adjust_adrenaline 0 c34State baseAction).adrenaline ≤ 100 :=
  adjust_adrenaline_accounting 0 c34State baseAction 95
    (by norm_num [c34State, mkPState]) (by norm_num [c34State, mkPState])

/-- C4: for an action with a declared adrenaline change, outside the
probabilistic ASR waiver, `adjust_adrenaline` selects -90 in place of -100
exactly when ring of vigour is on and otherwise exactly the declared change;
the balance becomes `min (balance + actual) 100` (so there is no lower
clamp) and the clamped overflow `max (balance + actual - 100) 0` is added to
the excess counter. -/
theorem adjust_adrenaline_deterministic (draw : ℚ) (s : PState) (a : Action) (change : ℚ)
    (hch : a.adrenaline_change = some change)
    (hdet : ¬ (change = -15 ∧ s.use_ASR ∧ s.use_prng)) :
    actual_adrenaline_change draw s change
      = (if change = -100 ∧ s.use_ringofvigour then (-90 : ℚ) else change)
    ∧ (adjust_adrenaline draw s a).adrenaline
      = min (s.adrenaline + actual_adrenaline_change draw s change) 100
    ∧ (adjust_adrenaline draw s a).excess_adrenaline
      = s.excess_adrenaline + max (s.adrenaline + actual_adrenaline_change draw s change - 100) 0 := by
  have heq : adjust_adrenaline draw s a = adjust_core draw s change := by
    unfold adjust_adrenaline
    rw [hch]
  refine ⟨?_, ?_, ?_⟩
  · unfold actual_adrenaline_change
    by_cases hrov : change = -100 ∧ s.use_ringofvigour
    · rw [if_pos hrov, if_pos hrov]
    · rw [if_neg hrov, if_neg hdet, if_neg hrov]
  · rw [heq, adjust_core_adrenaline]
  · rw [heq, adjust_core_excess]

/-- Witness for C4: the deterministic +8 gain at 95 adrenaline lands on the
clamp — the actual change is the declared 8, the balance ends at
`min 103 100` and the overflow 3 is recorded as excess. -/
theorem adjust_adrenaline_deterministic_witness :
    actual_adrenaline_change 0 c34State 8
      = (if (8 : ℚ) = -100 ∧ c34State.use_ringofvigour then (-90 : ℚ) else 8)
    ∧ (adjust_adrenaline 0 c34State baseAction).adrenaline
      = min (c34State.adrenaline + actual_adrenaline_change 0 c34State 8) 100
    ∧ (adjust_adrenaline 0 c34State baseAction).excess_adrenaline
      = c34State.excess_adrenaline
          + max (c34State.adrenaline + actual_adrenaline_change 0 c34State 8 - 100) 0 :=
  adjust_adrenaline_deterministic 0 c34State baseAction 8 rfl
    (by norm_num [c34State, mkPState])

/-- Helper: resetting a modifier keeps its name. -/
@[simp] theorem Modifier.reset_name (m : Modifier) : m.reset.name = m.name := rfl

/-- Helper: resetting a modifier keeps its uniqueness flag. -/
@[simp] theorem Modifier.reset_unqiue (m : Modifier) : m.reset.is_unqiue = m.is_unqiue := rfl

/-- Helper: the conditional in-place reset keeps the name. -/
theorem resetOnMatch_name (nm : String) (m : Modifier) :
    (if m.name = nm then m.reset else m).name = m.name := by
  split_ifs <;> rfl

/-- Helper: the conditional in-place reset keeps the uniqueness flag. -/
theorem resetOnMatch_unqiue (nm : String) (m : Modifier) :
    (if m.name = nm then m.reset else m).is_unqiue = m.is_unqiue := by
  split_ifs <;> rfl

/-- Helper: the membership test of `apply_mods` (line 39) holds exactly when
a live unique modifier already carries the template's name. -/
theorem contains_unique_name (l : List Modifier) (tmpl : Modifier) :
    ((l.filter (fun m => m.is_unqiue)).map (fun m => m.name)).contains tmpl.name = true
      ↔ ∃ m ∈ l, m.is_unqiue = true ∧ m.name = tmpl.name := by
  simp only [List.contains, List.elem_iff, List.mem_map, List.mem_filter]
  constructor
  · rintro ⟨m, ⟨hm, hu⟩, hnm⟩
    exact ⟨m, hm, hu, hnm⟩
  · rintro ⟨m, hm, hu, hnm⟩
    exact ⟨m, ⟨hm, hu⟩, hnm⟩

/-- C6: `apply_mods` re-granting a template whose name is carried by a live
unique modifier resets the matching entries in place without appending,
otherwise appends the fresh reset copy; in both cases the "no two live
unique modifiers share a name" invariant is preserved. -/
theorem apply_mods_unique (s : PState) (a : Action) (tmpl : Modifier)
    (hmod : a.mod = some tmpl) :
    (noDupUnique s.active_mods → noDupUnique (apply_mods s a).active_mods)
    ∧ ((∃ m ∈ s.active_mods, m.is_unqiue = true ∧ m.name = tmpl.name) →
        (apply_mods s a).active_mods
          = s.active_mods.map (fun m => if m.name = tmpl.name then m.reset else m))
    ∧ ((¬ ∃ m ∈ s.active_mods, m.is_unqiue = true ∧ m.name = tmpl.name) →
        (apply_mods s a).active_mods = s.active_mods ++ [tmpl.reset]) := by
  have heq : apply_mods s a = apply_mods_core s tmpl := by
    unfold apply_mods
    rw [hmod]
  rcases Bool.eq_false_or_eq_true
      (((s.active_mods.filter (fun m => m.is_unqiue)).map (fun m => m.name)).contains
        tmpl.name) with hb | hb
  · have hex : ∃ m ∈ s.active_mods, m.is_unqiue = true ∧ m.name = tmpl.name :=
      (contains_unique_name s.active_mods tmpl).mp hb
    have hcond :
        ¬ ((!(((s.active_mods.filter (fun m => m.is_unqiue)).map (fun m => m.name)).contains
          tmpl.name)) = true) := by
      rw [hb]
      simp
    have hout : (apply_mods s a).active_mods
        = s.active_mods.map (fun m => if m.name = tmpl.name then m.reset else m) := by
      rw [heq]
      simp only [apply_mods_core, Modifier.reset_name]
      rw [if_neg hcond]
    refine ⟨?_, fun _ => hout, fun hnex => absurd hex hnex⟩
    intro hdup
    rw [hout]
    unfold noDupUnique at hdup ⊢
    rw [List.pairwise_map]
    refine List.Pairwise.imp ?_ hdup
    intro m1 m2 h12 hu1 hu2
    rw [resetOnMatch_unqiue] at hu1 hu2
    rw [resetOnMatch_name, resetOnMatch_name]
    exact h12 hu1 hu2
  · have hnex : ¬ ∃ m ∈ s.active_mods, m.is_unqiue = true ∧ m.name = tmpl.name := by
      intro hex
      rw [(contains_unique_name s.active_mods tmpl).mpr hex] at hb
      exact Bool.noConfusion hb
    have hcond :
        (!(((s.active_mods.filter (fun m => m.is_unqiue)).map (fun m => m.name)).contains
          tmpl.name)) = true := by
      rw [hb]
      rfl
    have hout : (apply_mods s a).active_mods = s.active_mods ++ [tmpl.reset] := by
      rw [heq]
      simp only [apply_mods_core, Modifier.reset_name]
      rw [if_pos hcond]
    refine ⟨?_, fun hex => absurd hex hnex, fun _ => hout⟩
    intro hdup
    rw [hout]
    unfold noDupUnique at hdup ⊢
    rw [List.pairwise_append]
    refine ⟨hdup, List.pairwise_singleton _ _, ?_⟩
    intro m hm b hbm
    rw [List.mem_singleton] at hbm
    subst hbm
    intro hu1 _ hnm
    rw [Modifier.reset_name] at hnm
    exact hnex ⟨m, hm, hu1, hnm⟩

/-- Witness for C6: re-granting the live unique `testMod` (timer at 10)
through `modAction` resets it in place and keeps the invariant. -/
theorem apply_mods_unique_witness :
    (noDupUnique c6State.active_mods → noDupUnique (apply_mods c6State modAction).active_mods)
    ∧ ((∃ m ∈ c6State.active_mods, m.is_unqiue = true ∧ m.name = testMod.name) →
        (apply_mods c6State modAction).active_mods
          = c6State.active_mods.map (fun m => if m.name = testMod.name then m.reset else m))
    ∧ ((¬ ∃ m ∈ c6State.active_mods, m.is_unqiue = true ∧ m.name = testMod.name) →
        (apply_mods c6State modAction).active_mods = c6State.active_mods ++ [testMod.reset]) :=
  apply_mods_unique c6State modAction testMod rfl

/-- C8: membership in `get_available_actions` — an action is returned iff it
is in the roster, ready (which includes enabled) and eligible, and, whenever
some ready eligible action is flagged `always_use`, it is itself so
flagged (the forced set pre-empts free choice). -/
theorem get_available_actions_spec (s : PState) (x : Action) :
    x ∈ s.get_available_actions
      ↔ (x ∈ s.actions ∧ x.is_ready = true ∧ s.check_pstate x = true
          ∧ ((∃ a ∈ s.actions, a.always_use = true ∧ a.is_ready = true ∧ s.check_pstate a = true)
              → x.always_use = true)) := by
  unfold PState.get_available_actions
  by_cases hf : ∃ a ∈ s.actions, a.always_use = true ∧ a.is_ready = true ∧ s.check_pstate a = true
  · obtain ⟨a0, ha0, hau, hr, hc⟩ := hf
    have hmem : a0 ∈ s.actions.filter (fun a => a.always_use && a.is_ready && s.check_pstate a) := by
      rw [List.mem_filter]
      exact ⟨ha0, by simp [hau, hr, hc]⟩
    have hlen : (s.actions.filter (fun a => a.always_use && a.is_ready && s.check_pstate a)).length > 0 :=
      List.length_pos.mpr (List.ne_nil_of_mem hmem)
    rw [if_pos hlen, List.mem_filter]
    simp only [Bool.and_eq_true]
    constructor
    · rintro ⟨hxm, ⟨hxa, hxr⟩, hxc⟩
      exact ⟨hxm, hxr, hxc, fun _ => hxa⟩
    · rintro ⟨hxm, hxr, hxc, hxa⟩
      exact ⟨hxm, ⟨hxa ⟨a0, ha0, hau, hr, hc⟩, hxr⟩, hxc⟩
  · have hnil : s.actions.filter (fun a => a.always_use && a.is_ready && s.check_pstate a) = [] := by
      rw [List.filter_eq_nil_iff]
      intro a ha hp
      rw [Bool.and_eq_true, Bool.and_eq_true] at hp
      exact hf ⟨a, ha, hp.1.1, hp.1.2, hp.2⟩
    rw [hnil]
    simp only [List.length_nil, gt_iff_lt, lt_self_iff_false, if_false, List.mem_filter,
      Bool.and_eq_true]
    constructor
    · rintro ⟨hxm, hxr, hxc⟩
      exact ⟨hxm, hxr, hxc, fun hex => absurd hex hf⟩
    · rintro ⟨hxm, hxr, hxc, _⟩
      exact ⟨hxm, hxr, hxc⟩

/-- Helper: binding a successful `Except` applies the continuation. -/
@[simp] theorem except_bind_ok {α β : Type} (a : α) (f : α → Except String β) :
    (Except.ok a : Except String α) >>= f = f a := rfl

/-- Helper: binding a failed `Except` propagates the error. -/
@[simp] theorem except_bind_error {α β : Type} (e : String) (f : α → Except String β) :
    (Except.error e : Except String α) >>= f = Except.error e := rfl

/-- Helper: `pure` for `Except` is `ok`. -/
@[simp] theorem except_pure {α : Type} (a : α) :
    (pure a : Except String α) = Except.ok a := rfl

/-- Helper: a successful global tick maps every action timer forward. -/
theorem tick_ok_actions (s s' : PState) (t : ℚ) (h : s.tick t = Except.ok s') :
    s'.actions = s.actions.map (fun a => a.tick t) := by
  unfold PState.tick at h
  split at h
  · exact Except.noConfusion h
  · injection h with h
    rw [← h]

/-- Helper: with nothing available the greedy choice is `None`. -/
theorem get_greedy_best_empty (s : PState) (hav : s.get_available_actions = []) :
    s.get_greedy_best = Except.ok none := by
  unfold PState.get_greedy_best
  rw [hav]
  rfl

/-- Helper: the cooling roster of `c2State` offers nothing. -/
theorem c2_hav : c2State.get_available_actions = [] := by
  have hready : coolingAction.is_ready = false := by
    simp only [Action.is_ready, coolingAction, baseAction, Bool.and_eq_false_iff,
      decide_eq_false_iff_not]
    left
    norm_num
  have hacts : c2State.actions = [coolingAction] := rfl
  unfold PState.get_available_actions
  rw [hacts]
  simp [hready]

/-- Helper: one tick of `c2State`. -/
theorem c2_h1 : c2State.tick 1 = Except.ok c2S1 := by
  unfold PState.tick
  have hmods : c2State.active_mods.mapM (fun m => m.tick 1) = Except.ok [] := rfl
  rw [hmods]
  have hact : coolingAction.tick 1 = { coolingAction with last_used := 1 } := by
    simp only [Action.tick, coolingAction, baseAction, Action.mk.injEq]
    norm_num
  simp [c2State, mkPState, c2S1, hact]

/-- Helper: the second tick, from `c2S1` to `c2S2`. -/
theorem c2_h2 : c2S1.tick 1 = Except.ok c2S2 := by
  unfold PState.tick
  have hmods : c2S1.active_mods.mapM (fun m => m.tick 1) = Except.ok [] := rfl
  rw [hmods]
  have hact : ({ coolingAction with last_used := 1 } : Action).tick 1
      = { coolingAction with last_used := 2 } := by
    simp only [Action.tick, coolingAction, baseAction, Action.mk.injEq]
    norm_num
  simp [c2State, mkPState, c2S1, c2S2, hact]

/-- C2 (amended): a skip decision point of the greedy loop advances the
elapsed tick counter by exactly 2, not 1 — the `action is None` branch ticks
once and bumps the counter, and, lacking a `continue`, the loop still
records the skip entry (against the once-ticked state), activates `None`
(a second tick) and bumps the counter again.  Every action timer therefore
advances by exactly 2 ticks per skip. -/
theorem greedy_step_skip (draw : ℚ) (s : PState) (t : ℚ) (s1 s2 : PState)
    (hav : s.get_available_actions = [])
    (h1 : s.tick 1 = Except.ok s1)
    (h2 : s1.tick 1 = Except.ok s2) :
    greedy_step draw s t
      = Except.ok (s2, t + 2,
          { action := none, value := 0, adrenaline := s1.adrenaline, mods := modsString s1 })
    ∧ s2.actions.map (fun a => a.last_used) = s.actions.map (fun a => a.last_used + 2) := by
  constructor
  · unfold greedy_step
    rw [get_greedy_best_empty s hav]
    simp only [except_bind_ok]
    rw [h1]
    simp only [except_bind_ok, except_pure, PState.value, PState.activate, Option.map_none']
    rw [h2]
    simp only [except_bind_ok]
    have ht : t + 1 + 1 = t + 2 := by ring
    rw [ht]
  · have e1 := tick_ok_actions s s1 1 h1
    have e2 := tick_ok_actions s1 s2 1 h2
    rw [e2, e1, List.map_map, List.map_map]
    refine List.map_congr_left ?_
    intro a _
    simp only [Function.comp, Action.tick]
    ring_nf

/-- Witness for C2 (amended): in `c2State` (one cooling action, nothing
available) one loop iteration lands on counter 2 and both-tick state. -/
theorem greedy_step_skip_witness :
    greedy_step 0 c2State 0
      = Except.ok (c2S2, 0 + 2,
          { action := none, value := 0, adrenaline := c2S1.adrenaline, mods := modsString c2S1 })
    ∧ c2S2.actions.map (fun a => a.last_used) = c2State.actions.map (fun a => a.last_used + 2) :=
  greedy_step_skip 0 c2State 0 c2S1 c2S2 c2_hav c2_h1 c2_h2

/-- Counterexample for C2 as stated: in `c2State` (one cooling action,
nothing available, counter at 0) the skip iteration does not advance the
elapsed tick counter by exactly 1 — it lands on 2, and the lone action's
timer lands on 2, not 1. -/
theorem greedy_step_skip_counterexample :
    (greedy_step 0 c2State 0).toOption.map (fun r => r.2.1) = some 2
    ∧ ¬ ((greedy_step 0 c2State 0).toOption.map (fun r => r.2.1) = some 1)
    ∧ (greedy_step 0 c2State 0).toOption.map (fun r => r.1.actions.map (fun a => a.last_used))
        = some [2]
    ∧ ¬ ((greedy_step 0 c2State 0).toOption.map (fun r => r.1.actions.map (fun a => a.last_used))
        = some [1]) := by
  have hstep : greedy_step 0 c2State 0
      = Except.ok (c2S2, 0 + 2,
          { action := none, value := 0, adrenaline := c2S1.adrenaline, mods := modsString c2S1 }) := by
    unfold greedy_step
    rw [get_greedy_best_empty c2State c2_hav]
    simp only [except_bind_ok]
    rw [c2_h1]
    simp only [except_bind_ok, except_pure, PState.value, PState.activate, Option.map_none']
    rw [c2_h2]
    simp only [except_bind_ok]
    have ht : (0 : ℚ) + 1 + 1 = 0 + 2 := by norm_num
    rw [ht]
  rw [hstep]
  have hacts : c2S2.actions.map (fun a => a.last_used) = [2] := by
    have : c2S2.actions = [{ coolingAction with last_used := 2 }] := rfl
    rw [this]
    rfl
  refine ⟨?_, ?_, ?_, ?_⟩
  · simp only [Except.toOption, Option.map_some', Option.some.injEq]
    norm_num
  · simp only [Except.toOption, Option.map_some', Option.some.injEq]
    norm_num
  · simp only [Except.toOption, Option.map_some', Option.some.injEq, hacts]
  · simp only [Except.toOption, Option.map_some', Option.some.injEq, hacts,
      List.cons.injEq]
    norm_num

end RsOptimizer
